import Mathlib

/-!
Shallow embedding of the until-failure workout-logger API (Go, gorm/Postgres)
and proofs about its access-control and resolver layer.

Rows carry their gorm soft-delete column as `deletedAt : Option Nat`
(`none` = live). Timestamps, identifiers and counters are `Nat`; the
float `weight` column of set entries plays no role in any modelled
operation and is omitted. Storage faults (connectivity, aborted
transactions) are injected through explicit `Option String` parameters,
since they originate outside the program.
-/

namespace UntilFailure

/-- A row of the `workout_routines` table (database.WorkoutRoutine). -/
structure WorkoutRoutineRow where
  id : Nat
  userId : Nat
  name : String
  deletedAt : Option Nat
deriving DecidableEq, Repr

/-- A row of the `workout_sessions` table (database.WorkoutSession). -/
structure WorkoutSessionRow where
  id : Nat
  userId : Nat
  workoutRoutineId : Nat
  deletedAt : Option Nat
deriving DecidableEq, Repr

/-- A row of the `exercise_routines` table (database.ExerciseRoutine). -/
structure ExerciseRoutineRow where
  id : Nat
  workoutRoutineId : Nat
  name : String
  sets : Nat
  reps : Nat
  deletedAt : Option Nat
deriving DecidableEq, Repr

/-- A row of the `exercises` table (database.Exercise). -/
structure ExerciseRow where
  id : Nat
  workoutSessionId : Nat
  exerciseRoutineId : Nat
  notes : String
  deletedAt : Option Nat
deriving DecidableEq, Repr

/-- A row of the `set_entries` table (database.SetEntry). -/
structure SetEntryRow where
  id : Nat
  exerciseId : Nat
  reps : Nat
  deletedAt : Option Nat
deriving DecidableEq, Repr

/-- The relational store: one list per table. -/
structure DB where
  workoutRoutines : List WorkoutRoutineRow
  workoutSessions : List WorkoutSessionRow
  exerciseRoutines : List ExerciseRoutineRow
  exercises : List ExerciseRow
  setEntries : List SetEntryRow
deriving DecidableEq, Repr

/-- The authenticated principal (token.Claims): identifier and email. -/
structure Claims where
  id : Nat
  email : String
deriving DecidableEq, Repr

/-- Row with the least key among a list of rows: the effect of
`ORDER BY id LIMIT 1` on the matching rows. -/
def minByKey {α : Type} (key : α → Nat) : List α → Option α
  | [] => none
  | a :: l =>
    match minByKey key l with
    | none => some a
    | some b => if key a ≤ key b then some a else some b

/-- Descriptor of one storage call, recording which columns its
predicate constrains. -/
inductive Query where
  | workoutRoutineAccess (userId routineId : Nat)
  | workoutSessionAccess (userId sessionId : Nat)
  | exerciseById (exerciseId : Nat)
  | exerciseRoutinesByWorkoutRoutine (workoutRoutineId : Nat)
  | updateExerciseWrite (exerciseId : String)
deriving DecidableEq, Repr

/-- Whether the call filters on the root ownership foreign key
(`user_id = principal`). -/
def Query.filtersByPrincipal : Query → Bool
  | .workoutRoutineAccess _ _ => true
  | .workoutSessionAccess _ _ => true
  | _ => false

/-- Whether the call filters on the identifier of the resource it is
about. -/
def Query.filtersByTerminalId : Query → Bool
  | .workoutRoutineAccess _ _ => true
  | .workoutSessionAccess _ _ => true
  | .exerciseById _ => true
  | .exerciseRoutinesByWorkoutRoutine _ => false
  | .updateExerciseWrite _ => true

/-- Whether the call writes to the store. -/
def Query.isWrite : Query → Bool
  | .updateExerciseWrite _ => true
  | _ => false

/-- Outcome of an access check at the ACS boundary. -/
inductive ACSOutcome where
  | granted
  | accessDenied
  | backendError (msg : String)
deriving DecidableEq, Repr

/-- Predicate of the workout-routine access query
(`user_id = $1 AND id = $2 AND deleted_at IS NULL`, the constant
workoutRoutineAccessQuery in src/graph/test/helpers.go). -/
def wrAccessMatch (userId routineId : Nat) (r : WorkoutRoutineRow) : Bool :=
  decide (r.userId = userId ∧ r.id = routineId ∧ r.deletedAt = none)

/-- Result row of the workout-routine access query: the matching row of
least id (`ORDER BY "workout_routines"."id" LIMIT 1`). -/
def runWorkoutRoutineAccessQuery (db : DB) (userId routineId : Nat) :
    Option WorkoutRoutineRow :=
  minByKey (fun r => r.id)
    (db.workoutRoutines.filter (wrAccessMatch userId routineId))

/-- Predicate of the workout-session access query, same shape as the
routine one on the `workout_sessions` table. -/
def wsAccessMatch (userId sessionId : Nat) (s : WorkoutSessionRow) : Bool :=
  decide (s.userId = userId ∧ s.id = sessionId ∧ s.deletedAt = none)

/-- Modelled from the spec: the accesscontroller package holding
GetWorkoutSession is not under src/; the query is the depth-1
workout-session row of the chain-shape table in section 4.1
(`user_id = P AND id = R`), soft-deleted rows excluded. -/
def runWorkoutSessionAccessQuery (db : DB) (userId sessionId : Nat) :
    Option WorkoutSessionRow :=
  minByKey (fun s => s.id)
    (db.workoutSessions.filter (wsAccessMatch userId sessionId))

/-- Modelled from the spec: the body of CanAccessWorkoutRoutine
(accesscontroller package) is not under src/; per section 4.1 and the
mocked expectations in the test files it issues exactly the
workoutRoutineAccessQuery of src/graph/test/helpers.go, grants on a
returned row, maps ErrRecordNotFound to AccessDenied and wraps any
other storage failure. The injected `fault` stands for such a failure. -/
def CanAccessWorkoutRoutineRun (db : DB) (fault : Option String)
    (userId routineId : Nat) : ACSOutcome × List Query :=
  match fault with
  | some m => (.backendError m, [Query.workoutRoutineAccess userId routineId])
  | none =>
    match runWorkoutRoutineAccessQuery db userId routineId with
    | some _ => (.granted, [Query.workoutRoutineAccess userId routineId])
    | none => (.accessDenied, [Query.workoutRoutineAccess userId routineId])

/-- Outcome of the workout-routine access check. -/
def CanAccessWorkoutRoutine (db : DB) (fault : Option String)
    (userId routineId : Nat) : ACSOutcome :=
  (CanAccessWorkoutRoutineRun db fault userId routineId).1

/-- Modelled from the spec: the body of CanAccessWorkoutSession
(accesscontroller package) is not under src/; same single-query shape as
the routine check, over `workout_sessions`. -/
def CanAccessWorkoutSessionRun (db : DB) (fault : Option String)
    (userId sessionId : Nat) : ACSOutcome × List Query :=
  match fault with
  | some m => (.backendError m, [Query.workoutSessionAccess userId sessionId])
  | none =>
    match runWorkoutSessionAccessQuery db userId sessionId with
    | some _ => (.granted, [Query.workoutSessionAccess userId sessionId])
    | none => (.accessDenied, [Query.workoutSessionAccess userId sessionId])

/-- Outcome of the workout-session access check. -/
def CanAccessWorkoutSession (db : DB) (fault : Option String)
    (userId sessionId : Nat) : ACSOutcome :=
  (CanAccessWorkoutSessionRun db fault userId sessionId).1

/-- Decimal digits folded into a value, failing on the first non-digit
character. -/
def parseDigits : List Char → Nat → Option Nat
  | [], acc => some acc
  | c :: cs, acc => if c.isDigit then parseDigits cs (acc * 10 + (c.toNat - 48)) else none

/-- strconv.ParseUint with base 10 and bit size 64: digits only,
nonempty, value below 2 to the 64; yields `none` on failure (the Go
function then returns value 0 together with the error). -/
def parseUint64 (s : String) : Option Nat :=
  match s.data with
  | [] => none
  | cs =>
    match parseDigits cs 0 with
    | none => none
    | some n => if n < 18446744073709551616 then some n else none

/-- The set-entry projection built by the resolvers
(model.SetEntry, weight omitted). -/
structure ModelSetEntry where
  id : String
  reps : Nat
deriving DecidableEq, Repr

/-- The exercise projection built by the resolvers (model.Exercise). -/
structure ModelExercise where
  id : String
  notes : String
  exerciseRoutineId : String
  sets : List ModelSetEntry
deriving DecidableEq, Repr

/-- The exercise-routine projection built by the resolvers
(model.ExerciseRoutine). -/
structure ModelExerciseRoutine where
  id : String
  name : String
  sets : Nat
  reps : Nat
deriving DecidableEq, Repr

/-- The workout-routine projection built by the resolvers
(model.WorkoutRoutine). -/
structure ModelWorkoutRoutine where
  id : String
  name : String
  exerciseRoutines : List ModelExerciseRoutine
deriving DecidableEq, Repr

/-- The updated-exercise projection (model.UpdatedExercise). -/
structure ModelUpdatedExercise where
  id : String
  notes : String
deriving DecidableEq, Repr

/-- Zero value of model.Exercise, returned on every error path. -/
def emptyModelExercise : ModelExercise := { id := "", notes := "", exerciseRoutineId := "", sets := [] }

/-- Zero value of model.WorkoutRoutine. -/
def emptyModelWorkoutRoutine : ModelWorkoutRoutine := { id := "", name := "", exerciseRoutines := [] }

/-- Zero value of model.UpdatedExercise. -/
def emptyModelUpdatedExercise : ModelUpdatedExercise := { id := "", notes := "" }

/-- Modelled from the spec: the body of database.GetExercise is not
under src/; following the per-id lookup pattern mocked in
src/tests/exercise_routine.resolvers_test.go it selects the exercise by
id alone (no ownership column), soft-deleted rows excluded, least id
first. -/
def runExerciseByIdQuery (db : DB) (exerciseId : Nat) : Option ExerciseRow :=
  minByKey (fun e => e.id)
    (db.exercises.filter (fun e => decide (e.id = exerciseId ∧ e.deletedAt = none)))

/-- Modelled from the spec: the message text of the AccessDenied error
value returned by the accesscontroller package is not under src/. -/
def accessDeniedMessage : String := "AccessDenied"

/-- Live set entries of an exercise, as preloaded by gorm associations. -/
def setsOfExercise (db : DB) (exerciseId : Nat) : List ModelSetEntry :=
  (db.setEntries.filter (fun s => decide (s.exerciseId = exerciseId ∧ s.deletedAt = none))).map
    (fun s => { id := toString s.id, reps := s.reps })

/-- queryResolver.Exercise (src/graph/schema.resolvers.go lines 511 to
552): resolve the principal, parse the identifier, fetch the exercise by
id, then run the workout-session access check on its parent session.
The third component records the storage calls issued, in order. -/
def queryResolverExercise (db : DB) (user : Option Claims) (exerciseID : String) :
    ModelExercise × Option String × List Query :=
  match user with
  | none => (emptyModelExercise, some "Error Getting Exercise: Invalid Token", [])
  | some u =>
    match parseUint64 exerciseID with
    | none => (emptyModelExercise, some "Error Getting Exercise: Invalid Exercise ID", [])
    | some exerciseIDUint =>
      match runExerciseByIdQuery db exerciseIDUint with
      | none =>
        (emptyModelExercise, some "Error Getting Exercise: record not found",
          [Query.exerciseById exerciseIDUint])
      | some e =>
        match CanAccessWorkoutSessionRun db none u.id e.workoutSessionId with
        | (.granted, acsTrace) =>
          ({ id := exerciseID, notes := e.notes,
             exerciseRoutineId := toString e.exerciseRoutineId,
             sets := setsOfExercise db e.id },
           none, Query.exerciseById exerciseIDUint :: acsTrace)
        | (.accessDenied, acsTrace) =>
          (emptyModelExercise,
           some ("Error Getting Exercise: " ++ accessDeniedMessage),
           Query.exerciseById exerciseIDUint :: acsTrace)
        | (.backendError m, acsTrace) =>
          (emptyModelExercise, some ("Error Getting Exercise: " ++ m),
           Query.exerciseById exerciseIDUint :: acsTrace)

/-- mutationResolver.UpdateExercise (src/unnamed/part_001 lines 117 to
151): the ParseUint error is discarded by the source (its `err` is
immediately overwritten), so a failed parse proceeds with identifier 0.
`updateFault` injects a failure of the UPDATE statement. -/
def mutationResolverUpdateExercise (db : DB) (user : Option Claims)
    (exerciseID : String) (notes : String) (updateFault : Option String) :
    ModelUpdatedExercise × Option String × List Query :=
  match user with
  | none => (emptyModelUpdatedExercise, some "Unauthorized", [])
  | some u =>
    let exerciseIDUint := (parseUint64 exerciseID).getD 0
    match runExerciseByIdQuery db exerciseIDUint with
    | none =>
      (emptyModelUpdatedExercise, some "Error Updating Exercise",
        [Query.exerciseById exerciseIDUint])
    | some e =>
      match CanAccessWorkoutSessionRun db none u.id e.workoutSessionId with
      | (.granted, acsTrace) =>
        match updateFault with
        | some _ =>
          (emptyModelUpdatedExercise, some "Error Updating Exercise",
            Query.exerciseById exerciseIDUint :: acsTrace ++ [Query.updateExerciseWrite exerciseID])
        | none =>
          ({ id := exerciseID, notes := notes }, none,
            Query.exerciseById exerciseIDUint :: acsTrace ++ [Query.updateExerciseWrite exerciseID])
      | (_, acsTrace) =>
        (emptyModelUpdatedExercise, some "Error Updating Exercise: Access Denied",
          Query.exerciseById exerciseIDUint :: acsTrace)

/-- database.GetExerciseRoutines (src/common/database/crud.go lines 44
to 59): the left join keeps exercise-routine rows whose foreign key
matches and whose parent workout routine is live; a failure of Rows()
yields the empty slice together with the error. -/
def GetExerciseRoutines (db : DB) (workoutRoutineId : Nat) (fault : Option String) :
    List ExerciseRoutineRow × Option String :=
  match fault with
  | some m => ([], some m)
  | none =>
    (db.exerciseRoutines.filter (fun er =>
        er.workoutRoutineId == workoutRoutineId &&
        db.workoutRoutines.any (fun wr =>
          wr.id == er.workoutRoutineId && wr.deletedAt == none)),
     none)

/-- model.ExerciseRoutine built from a database row. -/
def toModelExerciseRoutine (er : ExerciseRoutineRow) : ModelExerciseRoutine :=
  { id := toString er.id, name := er.name, sets := er.sets, reps := er.reps }

/-- queryResolver.ExerciseRoutines (src/graph/schema.resolvers.go lines
392 to 417): resolve the principal, run the workout-routine access
check, then fetch the exercise routines. The source never inspects the
error returned by that fetch (line 404), exactly as reproduced here. -/
def queryResolverExerciseRoutines (db : DB) (user : Option Claims)
    (workoutRoutineId : Nat) (fetchFault : Option String) :
    List ModelExerciseRoutine × Option String :=
  match user with
  | none => ([], some "Error Getting Exercise Routine: Unauthorized")
  | some u =>
    match CanAccessWorkoutRoutine db none u.id workoutRoutineId with
    | .granted =>
      let fetched := GetExerciseRoutines db workoutRoutineId fetchFault
      (fetched.1.map toModelExerciseRoutine, none)
    | .accessDenied =>
      ([], some ("Error Getting Exercise Routine: " ++ accessDeniedMessage))
    | .backendError m =>
      ([], some ("Error Getting Exercise Routine: " ++ m))

/-- Soft-delete mark of step 1 of the cascade:
`UPDATE "exercise_routines" SET "deleted_at"=now WHERE id = erId AND
"exercise_routines"."deleted_at" IS NULL`. -/
def markExerciseRoutineRow (erId now : Nat) (r : ExerciseRoutineRow) : ExerciseRoutineRow :=
  if r.id = erId ∧ r.deletedAt = none then { r with deletedAt := some now } else r

/-- Soft-delete mark of step 2 of the cascade:
`UPDATE "exercises" SET "deleted_at"=now WHERE exercise_routine_id =
erId AND "exercises"."deleted_at" IS NULL RETURNING *`. -/
def markExerciseRow (erId now : Nat) (e : ExerciseRow) : ExerciseRow :=
  if e.exerciseRoutineId = erId ∧ e.deletedAt = none then { e with deletedAt := some now } else e

/-- Soft-delete mark of step 3 of the cascade:
`UPDATE "set_entries" SET "deleted_at"=now WHERE exercise_id IN exIds
AND "set_entries"."deleted_at" IS NULL`. -/
def markSetEntryRow (exIds : List Nat) (now : Nat) (s : SetEntryRow) : SetEntryRow :=
  if s.exerciseId ∈ exIds ∧ s.deletedAt = none then { s with deletedAt := some now } else s

/-- Modelled from the spec: the body of the deleteExerciseRoutine
transaction (database package) is not under src/; its three statements
and their order are the mocked expectations of the Delete Exercise
Routine tests in src/tests/exercise_routine.resolvers_test.go. The
flags f1, f2, f3 inject a failure of the corresponding statement; any
failure rolls the whole transaction back, leaving the store as given. -/
def deleteExerciseRoutineTxn (db : DB) (erId now : Nat) (f1 f2 f3 : Bool) :
    DB × Option String :=
  if f1 then (db, some "Error Deleting Exercise Routine") else
  let db1 : DB :=
    { db with exerciseRoutines := db.exerciseRoutines.map (markExerciseRoutineRow erId now) }
  if f2 then (db, some "Error Deleting Exercise Routine") else
  let affected := db1.exercises.filter (fun e =>
    decide (e.exerciseRoutineId = erId ∧ e.deletedAt = none))
  let db2 : DB := { db1 with exercises := db1.exercises.map (markExerciseRow erId now) }
  if f3 then (db, some "Error Deleting Exercise Routine") else
  let db3 : DB :=
    { db2 with setEntries :=
        db2.setEntries.map (markSetEntryRow (affected.map (fun e => e.id)) now) }
  (db3, none)

/-- The access check as a transition on the backend state: the single
SELECT it issues reads and leaves the store unchanged. -/
def canAccessWorkoutRoutineStep (db : DB) (userId routineId : Nat) : ACSOutcome × DB :=
  (CanAccessWorkoutRoutine db none userId routineId, db)

/-- Workout-session variant of the state transition. -/
def canAccessWorkoutSessionStep (db : DB) (userId sessionId : Nat) : ACSOutcome × DB :=
  (CanAccessWorkoutSession db none userId sessionId, db)

/-- Modelled from the spec: the resolvers guarding depth-2 resources
(exercise routines, not under src/ except through their tests) first
fetch the live exercise routine by id, then run the workout-routine
access check against its parent: the composite reproduces the depth-2
chain shape of section 4.1. -/
def canAccessExerciseRoutineChain (db : DB) (userId erId : Nat) : ACSOutcome :=
  match minByKey (fun r => r.id)
      (db.exerciseRoutines.filter (fun r => decide (r.id = erId ∧ r.deletedAt = none))) with
  | none => .accessDenied
  | some er => CanAccessWorkoutRoutine db none userId er.workoutRoutineId

/-- Errors surfaced by gorm reads (gorm.ErrRecordNotFound or anything
else). -/
inductive GormError where
  | recordNotFound
  | other (msg : String)
deriving DecidableEq, Repr

/-- A row of the `users` table (database.User); `password` holds the
bcrypt hash. -/
structure UserRow where
  id : Nat
  email : String
  name : String
  password : String
deriving DecidableEq, Repr

/-- Result of the Login mutation: a token pair or a gqlerror message. -/
inductive LoginResult where
  | authSuccess (refreshToken accessToken : String)
  | failure (msg : String)
deriving DecidableEq, Repr

/-- mutationResolver.Login (src/graph/schema.resolvers.go lines 27 to
56). The external collaborators are passed in: `emailParses` stands for
mail.ParseAddress succeeding, `getUserByEmail` for
database.GetUserByEmail, `bcryptMatches hash password` for
bcrypt.CompareHashAndPassword succeeding, and `sign` for the two
token.Sign calls. -/
def Login (emailParses : String → Bool)
    (getUserByEmail : String → Except GormError UserRow)
    (bcryptMatches : String → String → Bool)
    (sign : UserRow → String × String)
    (email password : String) : LoginResult :=
  if emailParses email = false then .failure "Not a valid email"
  else
    match getUserByEmail email with
    | .error .recordNotFound => .failure "Email does not exist"
    | .error (.other _) => .failure "Error Logging In"
    | .ok dbUser =>
      if bcryptMatches dbUser.password password = false then .failure "Incorrect Password"
      else .authSuccess (sign dbUser).1 (sign dbUser).2

/-- Input shape of an exercise routine inside a
model.WorkoutRoutineInput. -/
structure ExerciseRoutineInput where
  name : String
  sets : Nat
  reps : Nat
deriving DecidableEq, Repr

/-- mutationResolver.CreateWorkoutRoutine (src/graph/schema.resolvers.go
lines 129 to 171): resolve the principal, reject names of two or fewer
runes, then attempt the single insert. The last component counts the
storage writes issued; `createFault` injects a failure of the insert;
`newId` is the id the insert assigns. -/
def createWorkoutRoutineResolver (user : Option Claims) (name : String)
    (ers : List ExerciseRoutineInput) (createFault : Option String) (newId : Nat) :
    ModelWorkoutRoutine × Option String × Nat :=
  match user with
  | none => (emptyModelWorkoutRoutine, some "Error Creating Workout: Unauthorized", 0)
  | some _ =>
    if name.length ≤ 2 then
      (emptyModelWorkoutRoutine, some "Invalid Routine Name Length", 0)
    else
      match createFault with
      | some _ => (emptyModelWorkoutRoutine, some "Error Creating Workout Routine", 1)
      | none =>
        ({ id := toString newId, name := name, exerciseRoutines := [] }, none, 1)

/-- Store with no rows at all. -/
def dbEmpty : DB :=
  { workoutRoutines := [], workoutSessions := [], exerciseRoutines := [],
    exercises := [], setEntries := [] }

/-- Concrete principal used by the evaluation theorems. -/
def claims1 : Claims := { id := 1, email := "a@b.c" }

/-- Store holding exercise 9 inside workout session 5 of user 1. -/
def dbC3 : DB :=
  { workoutRoutines := [],
    workoutSessions := [{ id := 5, userId := 1, workoutRoutineId := 2, deletedAt := none }],
    exerciseRoutines := [],
    exercises := [{ id := 9, workoutSessionId := 5, exerciseRoutineId := 7,
                    notes := "n", deletedAt := none }],
    setEntries := [] }

/-- Store holding workout routine 5 of user 1 together with its
exercise routine 9. -/
def dbC5 : DB :=
  { workoutRoutines := [{ id := 5, userId := 1, name := "legs", deletedAt := none }],
    workoutSessions := [],
    exerciseRoutines := [{ id := 9, workoutRoutineId := 5, name := "squat",
                           sets := 3, reps := 8, deletedAt := none }],
    exercises := [], setEntries := [] }

/-- Store exercising the full ownership chain of user 1: routine 5,
session 7, exercise routine 2, exercises 3 and 4, set entry 6. -/
def dbC6 : DB :=
  { workoutRoutines := [{ id := 5, userId := 1, name := "legs", deletedAt := none }],
    workoutSessions := [{ id := 7, userId := 1, workoutRoutineId := 5, deletedAt := none }],
    exerciseRoutines := [{ id := 2, workoutRoutineId := 5, name := "squat",
                           sets := 3, reps := 8, deletedAt := none }],
    exercises := [{ id := 3, workoutSessionId := 7, exerciseRoutineId := 2,
                    notes := "", deletedAt := none },
                  { id := 4, workoutSessionId := 7, exerciseRoutineId := 2,
                    notes := "", deletedAt := none }],
    setEntries := [{ id := 6, exerciseId := 3, reps := 10, deletedAt := none }] }

/-- dbC6 after its workout routine 5 was soft-deleted at time 50, the
exercise routine 2 itself still live: scenario B of section 8. -/
def dbB : DB :=
  { dbC6 with workoutRoutines := [{ id := 5, userId := 1, name := "legs", deletedAt := some 50 }] }

/-- Store whose only workout routine 5 belongs to user 2, not user 1. -/
def dbOtherOwner : DB :=
  { dbEmpty with workoutRoutines := [{ id := 5, userId := 2, name := "legs", deletedAt := none }] }

/-- Store whose only workout routine 5 of user 1 is soft-deleted. -/
def dbSoftDeleted : DB :=
  { dbEmpty with workoutRoutines := [{ id := 5, userId := 1, name := "legs", deletedAt := some 10 }] }

/-- Email validator rejecting everything. -/
def epFalse : String → Bool := fun _ => false

/-- Email validator accepting everything. -/
def epTrue : String → Bool := fun _ => true

/-- User lookup finding no row. -/
def lookupNotFound : String → Except GormError UserRow := fun _ => .error .recordNotFound

/-- A concrete user row. -/
def user1 : UserRow := { id := 1, email := "a@b.c", name := "n", password := "h" }

/-- User lookup returning user1. -/
def lookupUser1 : String → Except GormError UserRow := fun _ => .ok user1

/-- Hash comparison that never matches. -/
def bcryptNever : String → String → Bool := fun _ _ => false

/-- Token signer returning fixed tokens. -/
def signFixed : UserRow → String × String := fun _ => ("r", "a")

theorem minByKey_mem {α : Type} (key : α → Nat) (l : List α) (a : α)
    (h : minByKey key l = some a) : a ∈ l := by
  induction l with
  | nil => simp [minByKey] at h
  | cons b t ih =>
    rw [minByKey] at h
    cases hm : minByKey key t with
    | none =>
      rw [hm] at h
      simp only [Option.some.injEq] at h
      subst h
      exact List.mem_cons_self b t
    | some c =>
      rw [hm] at h
      by_cases hk : key b ≤ key c
      · simp only [if_pos hk, Option.some.injEq] at h
        subst h
        exact List.mem_cons_self b t
      · simp only [if_neg hk, Option.some.injEq] at h
        subst h
        exact List.mem_cons_of_mem b (ih hm)

theorem minByKey_isSome_of_mem {α : Type} (key : α → Nat) (l : List α) (a : α)
    (h : a ∈ l) : (minByKey key l).isSome = true := by
  cases l with
  | nil => cases h
  | cons b t =>
    rw [minByKey]
    cases minByKey key t with
    | none => rfl
    | some c => by_cases hk : key b ≤ key c <;> simp [hk]

theorem minByKey_filter_isSome_iff {α : Type} (key : α → Nat) (p : α → Bool)
    (l : List α) :
    (minByKey key (l.filter p)).isSome = true ↔ ∃ a ∈ l, p a = true := by
  constructor
  · intro h
    cases hm : minByKey key (l.filter p) with
    | none => rw [hm] at h; simp at h
    | some a =>
      have ha := minByKey_mem key (l.filter p) a hm
      rw [List.mem_filter] at ha
      exact ⟨a, ha.1, ha.2⟩
  · rintro ⟨a, hmem, hp⟩
    exact minByKey_isSome_of_mem key (l.filter p) a (List.mem_filter.mpr ⟨hmem, hp⟩)

theorem canAccessWR_granted_iff (db : DB) (P R : Nat) :
    CanAccessWorkoutRoutine db none P R = .granted ↔
      ∃ r ∈ db.workoutRoutines, r.userId = P ∧ r.id = R ∧ r.deletedAt = none := by
  rw [CanAccessWorkoutRoutine, CanAccessWorkoutRoutineRun]
  constructor
  · intro h
    cases hq : runWorkoutRoutineAccessQuery db P R with
    | none => rw [hq] at h; simp at h
    | some r =>
      have : (minByKey (fun r => r.id)
          (db.workoutRoutines.filter (wrAccessMatch P R))).isSome = true := by
        rw [← runWorkoutRoutineAccessQuery, hq]; rfl
      have := (minByKey_filter_isSome_iff (fun r => r.id) (wrAccessMatch P R)
        db.workoutRoutines).mp this
      rcases this with ⟨a, hmem, hp⟩
      rw [wrAccessMatch, decide_eq_true_iff] at hp
      exact ⟨a, hmem, hp⟩
  · rintro ⟨r, hmem, hP, hR, hdel⟩
    have hsome : (minByKey (fun r => r.id)
        (db.workoutRoutines.filter (wrAccessMatch P R))).isSome = true := by
      refine (minByKey_filter_isSome_iff _ _ _).mpr ⟨r, hmem, ?_⟩
      rw [wrAccessMatch, decide_eq_true_iff]
      exact ⟨hP, hR, hdel⟩
    rw [runWorkoutRoutineAccessQuery]
    cases hq : minByKey (fun r => r.id)
        (db.workoutRoutines.filter (wrAccessMatch P R)) with
    | none => rw [hq] at hsome; simp at hsome
    | some r => rfl

theorem canAccessWS_granted_iff (db : DB) (P R : Nat) :
    CanAccessWorkoutSession db none P R = .granted ↔
      ∃ s ∈ db.workoutSessions, s.userId = P ∧ s.id = R ∧ s.deletedAt = none := by
  rw [CanAccessWorkoutSession, CanAccessWorkoutSessionRun]
  constructor
  · intro h
    cases hq : runWorkoutSessionAccessQuery db P R with
    | none => rw [hq] at h; simp at h
    | some s =>
      have : (minByKey (fun s => s.id)
          (db.workoutSessions.filter (wsAccessMatch P R))).isSome = true := by
        rw [← runWorkoutSessionAccessQuery, hq]; rfl
      have := (minByKey_filter_isSome_iff (fun s => s.id) (wsAccessMatch P R)
        db.workoutSessions).mp this
      rcases this with ⟨a, hmem, hp⟩
      rw [wsAccessMatch, decide_eq_true_iff] at hp
      exact ⟨a, hmem, hp⟩
  · rintro ⟨s, hmem, hP, hR, hdel⟩
    have hsome : (minByKey (fun s => s.id)
        (db.workoutSessions.filter (wsAccessMatch P R))).isSome = true := by
      refine (minByKey_filter_isSome_iff _ _ _).mpr ⟨s, hmem, ?_⟩
      rw [wsAccessMatch, decide_eq_true_iff]
      exact ⟨hP, hR, hdel⟩
    rw [runWorkoutSessionAccessQuery]
    cases hq : minByKey (fun s => s.id)
        (db.workoutSessions.filter (wsAccessMatch P R)) with
    | none => rw [hq] at hsome; simp at hsome
    | some s => rfl

theorem canAccessWR_not_granted_denied (db : DB) (P R : Nat)
    (h : CanAccessWorkoutRoutine db none P R ≠ .granted) :
    CanAccessWorkoutRoutine db none P R = .accessDenied := by
  rw [CanAccessWorkoutRoutine, CanAccessWorkoutRoutineRun] at h ⊢
  cases hq : runWorkoutRoutineAccessQuery db P R with
  | none => rfl
  | some r => rw [hq] at h; exact absurd rfl h

theorem canAccessWS_not_granted_denied (db : DB) (P R : Nat)
    (h : CanAccessWorkoutSession db none P R ≠ .granted) :
    CanAccessWorkoutSession db none P R = .accessDenied := by
  rw [CanAccessWorkoutSession, CanAccessWorkoutSessionRun] at h ⊢
  cases hq : runWorkoutSessionAccessQuery db P R with
  | none => rfl
  | some s => rw [hq] at h; exact absurd rfl h

/-- C1: for both chain shapes the access check grants exactly when a
non-soft-deleted row exists whose id equals the resource and whose
user_id equals the principal, and denies otherwise; in particular every
non-grant is the AccessDenied outcome, and when every workout routine
of the principal is soft-deleted the depth-2 exercise-routine chain
denies even for a live exercise routine. -/
theorem canAccess_grants_iff_live_owned_row (db : DB) (P R : Nat) :
    (CanAccessWorkoutRoutine db none P R = .granted ↔
      ∃ r ∈ db.workoutRoutines, r.userId = P ∧ r.id = R ∧ r.deletedAt = none) ∧
    (CanAccessWorkoutSession db none P R = .granted ↔
      ∃ s ∈ db.workoutSessions, s.userId = P ∧ s.id = R ∧ s.deletedAt = none) ∧
    (CanAccessWorkoutRoutine db none P R ≠ .granted →
      CanAccessWorkoutRoutine db none P R = .accessDenied) ∧
    (CanAccessWorkoutSession db none P R ≠ .granted →
      CanAccessWorkoutSession db none P R = .accessDenied) ∧
    ((∀ r ∈ db.workoutRoutines, r.userId = P → r.deletedAt ≠ none) →
      ∀ erId, canAccessExerciseRoutineChain db P erId ≠ .granted) := by
  refine ⟨canAccessWR_granted_iff db P R, canAccessWS_granted_iff db P R,
    canAccessWR_not_granted_denied db P R, canAccessWS_not_granted_denied db P R, ?_⟩
  intro hdead erId hgr
  rw [canAccessExerciseRoutineChain] at hgr
  cases hm : minByKey (fun r => r.id)
      (db.exerciseRoutines.filter (fun r => decide (r.id = erId ∧ r.deletedAt = none))) with
  | none => rw [hm] at hgr; simp at hgr
  | some er =>
    rw [hm] at hgr
    rcases (canAccessWR_granted_iff db P er.workoutRoutineId).mp hgr with
      ⟨r, hmem, hP, _, hdel⟩
    exact hdead r hmem hP hdel

/-- C1 witness: user 1 is granted their live workout routine 5, and
scenario B denies the live exercise routine 2 once its parent routine
is soft-deleted. -/
theorem canAccess_grants_iff_live_owned_row_witness :
    CanAccessWorkoutRoutine dbC6 none 1 5 = .granted ∧
    canAccessExerciseRoutineChain dbB 1 2 ≠ .granted :=
  ⟨(canAccess_grants_iff_live_owned_row dbC6 1 5).1.mpr
      ⟨{ id := 5, userId := 1, name := "legs", deletedAt := none },
        by simp [dbC6], rfl, rfl, rfl⟩,
   (canAccess_grants_iff_live_owned_row dbB 1 0).2.2.2.2 (by decide) 2⟩

/-- C2: whenever no live row of the principal matches the resource (it
is absent, soft-deleted, or belongs to someone else) the check fails
with the one payload-free AccessDenied outcome, so two failing checks
are indistinguishable whatever their causes. -/
theorem accessDenied_indistinguishable (db1 db2 : DB) (P1 R1 P2 R2 : Nat)
    (h1 : ∀ r ∈ db1.workoutRoutines, ¬(r.userId = P1 ∧ r.id = R1 ∧ r.deletedAt = none))
    (h2 : ∀ r ∈ db2.workoutRoutines, ¬(r.userId = P2 ∧ r.id = R2 ∧ r.deletedAt = none)) :
    CanAccessWorkoutRoutine db1 none P1 R1 = .accessDenied ∧
    CanAccessWorkoutRoutine db2 none P2 R2 = .accessDenied ∧
    CanAccessWorkoutRoutine db1 none P1 R1 = CanAccessWorkoutRoutine db2 none P2 R2 := by
  have d1 : CanAccessWorkoutRoutine db1 none P1 R1 = .accessDenied := by
    apply canAccessWR_not_granted_denied
    intro hg
    rcases (canAccessWR_granted_iff db1 P1 R1).mp hg with ⟨r, hmem, hP, hR, hdel⟩
    exact h1 r hmem ⟨hP, hR, hdel⟩
  have d2 : CanAccessWorkoutRoutine db2 none P2 R2 = .accessDenied := by
    apply canAccessWR_not_granted_denied
    intro hg
    rcases (canAccessWR_granted_iff db2 P2 R2).mp hg with ⟨r, hmem, hP, hR, hdel⟩
    exact h2 r hmem ⟨hP, hR, hdel⟩
  exact ⟨d1, d2, d1.trans d2.symm⟩

/-- C2 witness: routine 5 owned by someone else and routine 5
soft-deleted produce the identical AccessDenied outcome for user 1. -/
theorem accessDenied_indistinguishable_witness :
    CanAccessWorkoutRoutine dbOtherOwner none 1 5 = .accessDenied ∧
    CanAccessWorkoutRoutine dbSoftDeleted none 1 5 = .accessDenied ∧
    CanAccessWorkoutRoutine dbOtherOwner none 1 5
      = CanAccessWorkoutRoutine dbSoftDeleted none 1 5 :=
  accessDenied_indistinguishable dbOtherOwner dbSoftDeleted 1 5 1 5
    (by decide) (by decide)

/-- C3 counterexample: the Exercise query operation violates the claim
at a concrete store — it issues two storage reads, and the first one
(the fetch of exercise 9 by id) does not filter by the principal at
all: the forbidden two-step fetch-the-resource-then-check-its-owner
pattern. -/
theorem exercise_resolver_two_step_counterexample :
    (queryResolverExercise dbC3 (some claims1) "9").2.2
        = [Query.exerciseById 9, Query.workoutSessionAccess 1 5] ∧
    (Query.exerciseById 9).filtersByPrincipal = false ∧
    ¬(queryResolverExercise dbC3 (some claims1) "9").2.2.length = 1 := by
  decide

/-- C3 (amended): each ACS access check issues exactly one storage read
whose predicate filters simultaneously by the terminal resource id and
by the root ownership key; operations on grandchild resources, however,
first fetch the resource by id alone and only then run the check on its
parent, as the Exercise operation trace shows. -/
theorem access_check_single_combined_read (db : DB) (fault : Option String) (P R : Nat) :
    (CanAccessWorkoutRoutineRun db fault P R).2 = [Query.workoutRoutineAccess P R] ∧
    (CanAccessWorkoutSessionRun db fault P R).2 = [Query.workoutSessionAccess P R] ∧
    (Query.workoutRoutineAccess P R).filtersByPrincipal = true ∧
    (Query.workoutRoutineAccess P R).filtersByTerminalId = true ∧
    (Query.workoutSessionAccess P R).filtersByPrincipal = true ∧
    (Query.workoutSessionAccess P R).filtersByTerminalId = true ∧
    (queryResolverExercise dbC3 (some claims1) "9").2.2
        = [Query.exerciseById 9, Query.workoutSessionAccess 1 5] := by
  refine ⟨?_, ?_, rfl, rfl, rfl, rfl, by decide⟩
  · unfold CanAccessWorkoutRoutineRun
    cases fault with
    | some m => rfl
    | none => cases runWorkoutRoutineAccessQuery db P R <;> rfl
  · unfold CanAccessWorkoutSessionRun
    cases fault with
    | some m => rfl
    | none => cases runWorkoutSessionAccessQuery db P R <;> rfl

/-- C4: evaluated at the failing input, UpdateExercise with the
unparsable identifier "not-a-number" issues a storage read (for
exercise id 0, the zero value the discarded parse left behind) and
reports the generic update failure, not an invalid-argument error with
zero storage calls. -/
theorem updateExercise_ignores_parse_failure :
    (mutationResolverUpdateExercise dbEmpty (some claims1) "not-a-number" "note" none).2.1
        = some "Error Updating Exercise" ∧
    (mutationResolverUpdateExercise dbEmpty (some claims1) "not-a-number" "note" none).2.2
        = [Query.exerciseById 0] ∧
    ¬(mutationResolverUpdateExercise dbEmpty (some claims1) "not-a-number" "note" none).2.2.length
        = 0 := by
  decide

/-- C5: evaluated at the failing input, the ExerciseRoutines query
operation swallows a backend failure — the underlying read fails with a
non-not-found error, yet the operation reports success with an empty
list, because the source never inspects the error it got back. -/
theorem exerciseRoutines_swallows_backend_error :
    GetExerciseRoutines dbC5 5 (some "invalid transaction")
        = ([], some "invalid transaction") ∧
    queryResolverExerciseRoutines dbC5 (some claims1) 5 (some "invalid transaction")
        = ([], none) := by
  decide

/-- C6: deleting an exercise routine is logical and cascading — on
success every table keeps its row count while the routine, its
exercises and their set entries get the deletion timestamp; on any step
failure the transaction rolls back and the store is exactly as before,
no deletion timestamp changed. -/
theorem deleteExerciseRoutine_logical_cascade (db : DB) (erId now : Nat) (f1 f2 f3 : Bool) :
    ((deleteExerciseRoutineTxn db erId now f1 f2 f3).2 ≠ none →
      (deleteExerciseRoutineTxn db erId now f1 f2 f3).1 = db) ∧
    (deleteExerciseRoutineTxn db erId now false false false).2 = none ∧
    (deleteExerciseRoutineTxn db erId now false false false).1.exerciseRoutines.length
        = db.exerciseRoutines.length ∧
    (deleteExerciseRoutineTxn db erId now false false false).1.exercises.length
        = db.exercises.length ∧
    (deleteExerciseRoutineTxn db erId now false false false).1.setEntries.length
        = db.setEntries.length ∧
    (∀ r ∈ db.exerciseRoutines, r.id = erId → r.deletedAt = none →
      { r with deletedAt := some now } ∈
        (deleteExerciseRoutineTxn db erId now false false false).1.exerciseRoutines) ∧
    (∀ e ∈ db.exercises, e.exerciseRoutineId = erId → e.deletedAt = none →
      { e with deletedAt := some now } ∈
        (deleteExerciseRoutineTxn db erId now false false false).1.exercises) ∧
    (∀ s ∈ db.setEntries, s.deletedAt = none →
      (∃ e ∈ db.exercises, e.exerciseRoutineId = erId ∧ e.deletedAt = none ∧
        s.exerciseId = e.id) →
      { s with deletedAt := some now } ∈
        (deleteExerciseRoutineTxn db erId now false false false).1.setEntries) := by
  have hER : (deleteExerciseRoutineTxn db erId now false false false).1.exerciseRoutines
      = db.exerciseRoutines.map (markExerciseRoutineRow erId now) := rfl
  have hEx : (deleteExerciseRoutineTxn db erId now false false false).1.exercises
      = db.exercises.map (markExerciseRow erId now) := rfl
  have hSet : (deleteExerciseRoutineTxn db erId now false false false).1.setEntries
      = db.setEntries.map (markSetEntryRow
          ((db.exercises.filter (fun e =>
            decide (e.exerciseRoutineId = erId ∧ e.deletedAt = none))).map (fun e => e.id))
          now) := rfl
  refine ⟨?_, rfl, ?_, ?_, ?_, ?_, ?_, ?_⟩
  · intro hne
    cases f1 with
    | true => rfl
    | false =>
      cases f2 with
      | true => rfl
      | false =>
        cases f3 with
        | true => rfl
        | false => exact absurd rfl hne
  · rw [hER, List.length_map]
  · rw [hEx, List.length_map]
  · rw [hSet, List.length_map]
  · intro r hr hid hdel
    rw [hER]
    have hmark : markExerciseRoutineRow erId now r = { r with deletedAt := some now } := by
      rw [markExerciseRoutineRow, if_pos ⟨hid, hdel⟩]
    rw [← hmark]
    exact List.mem_map_of_mem _ hr
  · intro e he hfk hdel
    rw [hEx]
    have hmark : markExerciseRow erId now e = { e with deletedAt := some now } := by
      rw [markExerciseRow, if_pos ⟨hfk, hdel⟩]
    rw [← hmark]
    exact List.mem_map_of_mem _ he
  · intro s hs hdel hex
    rcases hex with ⟨e, he, hfk, helive, hsid⟩
    rw [hSet]
    have hidmem : s.exerciseId ∈ (db.exercises.filter (fun e =>
        decide (e.exerciseRoutineId = erId ∧ e.deletedAt = none))).map (fun e => e.id) := by
      rw [hsid]
      exact List.mem_map_of_mem _
        (List.mem_filter.mpr ⟨he, by rw [decide_eq_true_iff]; exact ⟨hfk, helive⟩⟩)
    have hmark : markSetEntryRow
        ((db.exercises.filter (fun e =>
          decide (e.exerciseRoutineId = erId ∧ e.deletedAt = none))).map (fun e => e.id))
        now s = { s with deletedAt := some now } := by
      rw [markSetEntryRow, if_pos ⟨hidmem, hdel⟩]
    rw [← hmark]
    exact List.mem_map_of_mem _ hs

/-- C6 witness: a failing third step leaves the concrete store intact,
while the successful run marks exercise 3 and its set entry 6 deleted
at time 100. -/
theorem deleteExerciseRoutine_logical_cascade_witness :
    (deleteExerciseRoutineTxn dbC6 2 100 false false true).1 = dbC6 ∧
    ({ id := 3, workoutSessionId := 7, exerciseRoutineId := 2, notes := "",
       deletedAt := some 100 } : ExerciseRow) ∈
      (deleteExerciseRoutineTxn dbC6 2 100 false false false).1.exercises ∧
    ({ id := 6, exerciseId := 3, reps := 10, deletedAt := some 100 } : SetEntryRow) ∈
      (deleteExerciseRoutineTxn dbC6 2 100 false false false).1.setEntries := by
  refine ⟨(deleteExerciseRoutine_logical_cascade dbC6 2 100 false false true).1 (by decide),
    ?_, ?_⟩
  · exact (deleteExerciseRoutine_logical_cascade dbC6 2 100 false false false).2.2.2.2.2.2.1
      { id := 3, workoutSessionId := 7, exerciseRoutineId := 2, notes := "", deletedAt := none }
      (by decide) rfl rfl
  · exact (deleteExerciseRoutine_logical_cascade dbC6 2 100 false false false).2.2.2.2.2.2.2
      { id := 6, exerciseId := 3, reps := 10, deletedAt := none }
      (by decide) rfl
      ⟨{ id := 3, workoutSessionId := 7, exerciseRoutineId := 2, notes := "",
         deletedAt := none }, by decide, rfl, rfl, rfl⟩

/-- C7: the access check is deterministic and idempotent — rerun on the
state it left behind it returns the same outcome, that state is the
input state unchanged, and every storage call it issues is a read, not
a write. -/
theorem canAccess_idempotent_readonly (db : DB) (P R : Nat) :
    (canAccessWorkoutRoutineStep db P R).2 = db ∧
    canAccessWorkoutRoutineStep (canAccessWorkoutRoutineStep db P R).2 P R
      = canAccessWorkoutRoutineStep db P R ∧
    (canAccessWorkoutSessionStep db P R).2 = db ∧
    canAccessWorkoutSessionStep (canAccessWorkoutSessionStep db P R).2 P R
      = canAccessWorkoutSessionStep db P R ∧
    (∀ q ∈ (CanAccessWorkoutRoutineRun db none P R).2, q.isWrite = false) ∧
    (∀ q ∈ (CanAccessWorkoutSessionRun db none P R).2, q.isWrite = false) := by
  have htr : (CanAccessWorkoutRoutineRun db none P R).2
      = [Query.workoutRoutineAccess P R] := by
    unfold CanAccessWorkoutRoutineRun
    cases runWorkoutRoutineAccessQuery db P R <;> rfl
  have hts : (CanAccessWorkoutSessionRun db none P R).2
      = [Query.workoutSessionAccess P R] := by
    unfold CanAccessWorkoutSessionRun
    cases runWorkoutSessionAccessQuery db P R <;> rfl
  refine ⟨rfl, rfl, rfl, rfl, ?_, ?_⟩
  · intro q hq
    rw [htr, List.mem_singleton] at hq
    subst hq
    rfl
  · intro q hq
    rw [hts, List.mem_singleton] at hq
    subst hq
    rfl

/-- C7 witness: on the concrete store the check leaves the state
unchanged and its one storage call is not a write. -/
theorem canAccess_idempotent_readonly_witness :
    (canAccessWorkoutRoutineStep dbC6 1 5).2 = dbC6 ∧
    (Query.workoutRoutineAccess 1 5).isWrite = false :=
  ⟨(canAccess_idempotent_readonly dbC6 1 5).1,
   (canAccess_idempotent_readonly dbC6 1 5).2.2.2.2.1
     (Query.workoutRoutineAccess 1 5) (by decide)⟩

/-- C9: Login surfaces three mutually distinct failure messages — an
unparsable email, an email with no user row, and a failed password
comparison each produce their own message, so a caller can tell from
the error whether an account with the given email exists. -/
theorem login_failure_messages_distinguishable (ep : String → Bool)
    (gu : String → Except GormError UserRow) (bm : String → String → Bool)
    (sign : UserRow → String × String) (email password : String) :
    (ep email = false →
      Login ep gu bm sign email password = .failure "Not a valid email") ∧
    (ep email = true → gu email = .error .recordNotFound →
      Login ep gu bm sign email password = .failure "Email does not exist") ∧
    (∀ u, ep email = true → gu email = .ok u → bm u.password password = false →
      Login ep gu bm sign email password = .failure "Incorrect Password") ∧
    LoginResult.failure "Not a valid email" ≠ .failure "Email does not exist" ∧
    LoginResult.failure "Not a valid email" ≠ .failure "Incorrect Password" ∧
    LoginResult.failure "Email does not exist" ≠ .failure "Incorrect Password" := by
  refine ⟨?_, ?_, ?_, by decide, by decide, by decide⟩
  · intro h
    simp [Login, h]
  · intro h hnf
    simp [Login, h, hnf]
  · intro u h hok hbm
    simp [Login, h, hok, hbm]

/-- C9 witness: the three failure branches evaluated at concrete
collaborators. -/
theorem login_failure_messages_distinguishable_witness :
    Login epFalse lookupNotFound bcryptNever signFixed "x" "p"
      = .failure "Not a valid email" ∧
    Login epTrue lookupNotFound bcryptNever signFixed "a@b.c" "p"
      = .failure "Email does not exist" ∧
    Login epTrue lookupUser1 bcryptNever signFixed "a@b.c" "p"
      = .failure "Incorrect Password" :=
  ⟨(login_failure_messages_distinguishable epFalse lookupNotFound bcryptNever signFixed
      "x" "p").1 rfl,
   (login_failure_messages_distinguishable epTrue lookupNotFound bcryptNever signFixed
      "a@b.c" "p").2.1 rfl rfl,
   (login_failure_messages_distinguishable epTrue lookupUser1 bcryptNever signFixed
      "a@b.c" "p").2.2.1 user1 rfl rfl rfl⟩

/-- C10: for an authenticated principal, CreateWorkoutRoutine rejects
every name of two or fewer characters with the Invalid Routine Name
Length error and zero storage writes, and a creation write is issued
exactly when the name has at least three characters. -/
theorem createWorkoutRoutine_name_length_guard (u : Claims) (name : String)
    (ers : List ExerciseRoutineInput) (fault : Option String) (newId : Nat) :
    (name.length ≤ 2 →
      createWorkoutRoutineResolver (some u) name ers fault newId
        = (emptyModelWorkoutRoutine, some "Invalid Routine Name Length", 0)) ∧
    (1 ≤ (createWorkoutRoutineResolver (some u) name ers fault newId).2.2 ↔
      3 ≤ name.length) := by
  constructor
  · intro h
    simp [createWorkoutRoutineResolver, h]
  · by_cases h : name.length ≤ 2
    · simp [createWorkoutRoutineResolver, h]
      omega
    · cases fault with
      | some m =>
        simp [createWorkoutRoutineResolver, h]
        omega
      | none =>
        simp [createWorkoutRoutineResolver, h]
        omega

/-- C10 witness: the two-character name "ab" is rejected with no write,
the three-character name "abc" reaches the insert. -/
theorem createWorkoutRoutine_name_length_guard_witness :
    createWorkoutRoutineResolver (some claims1) "ab" [] none 7
      = (emptyModelWorkoutRoutine, some "Invalid Routine Name Length", 0) ∧
    1 ≤ (createWorkoutRoutineResolver (some claims1) "abc" [] none 7).2.2 :=
  ⟨(createWorkoutRoutine_name_length_guard claims1 "ab" [] none 7).1 (by decide),
   (createWorkoutRoutine_name_length_guard claims1 "abc" [] none 7).2.mpr (by decide)⟩

end UntilFailure
